import Mathlib

/-!
Verification of the ledger logic of the Bank-Assignment repository.

The repository contains three independent implementations of the same
deposit/withdrawal ledger:

* the Express + SQLite server (`src/server/index.js`), where each user has an
  `accounts` row with a stored `balance` and a `transactions` table without a
  `balance_after` column;
* the Supabase/Postgres implementation (`src/unnamed/part_000` schema with
  `get_current_balance`, and `createTransaction` in `src/unnamed/part_007`),
  where there is no stored balance: the current balance is the `balance_after`
  of the most recent transaction row;
* the in-memory mock (`src/src/services/bankerService.ts` and
  `src/unnamed/part_006`), a module-level `customers` array mutated in place.

Each implementation is embedded below as an explicit state-passing function.
Monetary values are JavaScript numbers in the source; the only arithmetic the
ledger performs on them is +, -, and order comparisons, and every monetary
constant in the repository is an integer, so they are modelled as `ℤ` (exact
for all integer-valued runs). UUIDs are modelled as `Nat`
identifiers assigned from a counter, and `created_at` timestamps as a `Nat`
clock incremented on each insert (timestamps are monotone in insertion order).
A separate section embeds the server's transaction route over a small model of
JavaScript runtime values, because the route's validation uses JavaScript
truthiness and loose comparison, whose behaviour on non-numeric payloads
differs from the numeric restriction.
-/

namespace Bank

/-- Transaction kind: the `type` column, `CHECK(type IN ('deposit', 'withdrawal'))`. -/
inductive TxKind
  | deposit
  | withdrawal
deriving DecidableEq

/-- A row of the server's `accounts` table (`src/server/index.js` lines 40-48):
`id TEXT PRIMARY KEY, user_id TEXT, balance REAL`. -/
structure Account where
  id : Nat
  userId : Nat
  balance : ℤ
deriving DecidableEq

/-- A row of the server's `transactions` table (`src/server/index.js` lines
51-61): `id, account_id, type, amount, description, created_at`.  This table
has no `balance_after` column. -/
structure Tx where
  id : Nat
  accountId : Nat
  kind : TxKind
  amount : ℤ
  description : Option String
  created_at : Nat
deriving DecidableEq

/-- The error taxonomy of the spec (section 7); the server returns these as
HTTP 400/404/500 responses. -/
inductive LedgerError
  | notFound
  | invalidKind
  | invalidAmount
  | insufficientFunds
  | storageFailure
deriving DecidableEq

/-- The mutable state of the SQLite server: both tables, plus the id and
timestamp sources (`uuidv4()` and `CURRENT_TIMESTAMP` modelled as counters). -/
structure ServerState where
  accounts : List Account
  txs : List Tx
  nextTxId : Nat
  clock : Nat
deriving DecidableEq

/-- The JSON body of a successful response of
`POST /api/account/transaction`: `{ success, transactionId, newBalance }`. -/
structure TxResponse where
  transactionId : Nat
  newBalance : ℤ
deriving DecidableEq

/-- The three statements of the atomic write step
(`UPDATE accounts`, `INSERT INTO transactions`, `COMMIT`), each of which the
storage layer may fail. -/
inductive WriteStep
  | updateStep
  | insertStep
  | commitStep
deriving DecidableEq

instance {ε α : Type _} [DecidableEq ε] [DecidableEq α] :
    DecidableEq (Except ε α) := fun x y =>
  match x, y with
  | .ok a, .ok b => decidable_of_iff (a = b) (by simp)
  | .error a, .error b => decidable_of_iff (a = b) (by simp)
  | .ok _, .error _ => .isFalse (by simp)
  | .error _, .ok _ => .isFalse (by simp)

/-- The oracle describing a run in which the storage layer does not fail. -/
def noFail : WriteStep → Bool := fun _ => true

/-- `SELECT * FROM accounts WHERE user_id = ?` (`src/server/index.js`
lines 269-272). -/
def findAccount (s : ServerState) (userId : Nat) : Option Account :=
  s.accounts.find? fun a => a.userId == userId

/-- The handler of `POST /api/account/transaction`
(`src/server/index.js` lines 251-318).

* `if (!type || !amount || amount <= 0)` → 400 "Invalid transaction data".
  For a numeric `amount` the JavaScript condition `!amount || amount <= 0` is
  exactly `amount ≤ 0` (`!0` is true); a missing `type` also lands here.
* `if (type !== 'deposit' && type !== 'withdrawal')` → 400 "Invalid
  transaction type".
* missing account → 404 "Account not found".
* `if (type === 'withdrawal' && amount > account.balance)` → 400
  "Insufficient funds".
* otherwise `newBalance = type === 'deposit' ? balance + amount
  : balance - amount`, then `BEGIN TRANSACTION`, `UPDATE accounts SET balance`,
  `INSERT INTO transactions`, `COMMIT`.  The `oracle` says which of the three
  journalled statements succeed; if any fails, the `catch` block issues
  `ROLLBACK`, so the journal discards every pending change and the handler
  responds 500 — all-or-nothing. -/
def postTransaction (s : ServerState) (userId : Nat) (kind? : Option String)
    (amount : ℤ) (description : Option String) (oracle : WriteStep → Bool) :
    Except LedgerError TxResponse × ServerState :=
  if kind?.isNone ∨ amount ≤ 0 then (.error .invalidAmount, s)
  else if kind? ≠ some "deposit" ∧ kind? ≠ some "withdrawal" then
    (.error .invalidKind, s)
  else
    match findAccount s userId with
    | none => (.error .notFound, s)
    | some account =>
      let kind : TxKind :=
        if kind? = some "deposit" then .deposit else .withdrawal
      if kind = .withdrawal ∧ account.balance < amount then
        (.error .insufficientFunds, s)
      else
        let newBalance :=
          if kind = .deposit then account.balance + amount
          else account.balance - amount
        if oracle .updateStep ∧ oracle .insertStep ∧ oracle .commitStep then
          (.ok ⟨s.nextTxId, newBalance⟩,
            { accounts := s.accounts.map fun a =>
                if a.id = account.id then { a with balance := newBalance }
                else a
            , txs := s.txs ++
                [⟨s.nextTxId, account.id, kind, amount, description, s.clock⟩]
            , nextTxId := s.nextTxId + 1
            , clock := s.clock + 1 })
        else (.error .storageFailure, s)

/-- The handler of `GET /api/account/balance` (`src/server/index.js` lines
197-217): 404 "Account not found" when the user has no account row, otherwise
`{ balance: account.balance }`. -/
def getBalance (s : ServerState) (userId : Nat) : Except LedgerError ℤ :=
  match findAccount s userId with
  | some account => .ok account.balance
  | none => .error .notFound

/-- Ordering used by the history queries: `ORDER BY created_at DESC`.
`txLaterEq a b` holds when `a` was created no earlier than `b`. -/
def txLaterEq (a b : Tx) : Prop := b.created_at ≤ a.created_at

instance : DecidableRel txLaterEq := fun a b => Nat.decLe b.created_at a.created_at

instance : IsTotal Tx txLaterEq := ⟨fun a b => Nat.le_total b.created_at a.created_at⟩

instance : IsTrans Tx txLaterEq := ⟨fun _ _ _ h h' => le_trans h' h⟩

/-- The handler of `GET /api/account/transactions` (`src/server/index.js`
lines 220-248): 404 when the user has no account, otherwise all rows with
`WHERE account_id = ? ORDER BY created_at DESC`, with no LIMIT/OFFSET and no
order parameter. -/
def listTransactions (s : ServerState) (userId : Nat) :
    Except LedgerError (List Tx) :=
  match findAccount s userId with
  | none => .error .notFound
  | some account =>
      .ok (List.insertionSort txLaterEq
        (s.txs.filter fun t => t.accountId == account.id))

/-- Sum of the amounts of the committed deposit transactions of one account. -/
def depositSum (txs : List Tx) (accountId : Nat) : ℤ :=
  ((txs.filter fun t =>
      t.accountId == accountId && t.kind == TxKind.deposit).map (·.amount)).sum

/-- Sum of the amounts of the committed withdrawal transactions of one account. -/
def withdrawalSum (txs : List Tx) (accountId : Nat) : ℤ :=
  ((txs.filter fun t =>
      t.accountId == accountId && t.kind == TxKind.withdrawal).map (·.amount)).sum

/-- The balance identity of the spec (section 8, property 1): every account's
stored balance is the sum of its deposits minus the sum of its withdrawals. -/
def balanceIdentity (s : ServerState) : Prop :=
  ∀ a ∈ s.accounts,
    a.balance = depositSum s.txs a.id - withdrawalSum s.txs a.id

/-- Distinctness of the account primary keys (`id TEXT PRIMARY KEY`). -/
def accountIdsNodup (s : ServerState) : Prop :=
  (s.accounts.map (·.id)).Nodup

/-- The state built by `seedInitialData` (`src/server/index.js` lines 71-120):
three customers, each with one account of balance 5000 and a single seeded
deposit transaction of 5000. -/
def seedState : ServerState :=
  { accounts := [⟨0, 0, 5000⟩, ⟨1, 1, 5000⟩, ⟨2, 2, 5000⟩]
  , txs :=
      [ ⟨0, 0, .deposit, 5000, some "Initial deposit", 0⟩
      , ⟨1, 1, .deposit, 5000, some "Initial deposit", 0⟩
      , ⟨2, 2, .deposit, 5000, some "Initial deposit", 0⟩ ]
  , nextTxId := 3
  , clock := 1 }

/-- States of the SQLite server reachable from the seeded database by
transaction requests. -/
inductive ServerReachable : ServerState → Prop
  | seed : ServerReachable seedState
  | step (s : ServerState) (userId : Nat) (kind? : Option String) (amount : ℤ)
      (description : Option String) (oracle : WriteStep → Bool) :
      ServerReachable s →
      ServerReachable (postTransaction s userId kind? amount description oracle).2

/-! ## Supabase/Postgres implementation

Schema `src/unnamed/part_000`: table `transactions(id, user_id, type, amount,
description, balance_after, created_at)` with `CHECK (type IN ('deposit',
'withdrawal'))` and `CHECK (amount > 0)`; there is no accounts table and no
stored balance.  Function `get_current_balance(user_id)` returns
`COALESCE((SELECT balance_after ... ORDER BY created_at DESC LIMIT 1), 0)`.
Client `src/unnamed/part_007` lines 99-138 implements `createTransaction`. -/

/-- A row of the Supabase `transactions` table.  `kind` is the `type` column. -/
structure SupaTx where
  id : Nat
  user_id : Nat
  kind : String
  amount : ℤ
  description : Option String
  balance_after : ℤ
  created_at : Nat
deriving DecidableEq

/-- The Supabase database state: the `transactions` table plus the
`gen_random_uuid()` and `now()` sources modelled as counters. -/
structure SupaState where
  txs : List SupaTx
  nextId : Nat
  clock : Nat
deriving DecidableEq

/-- `supaLaterEq a b` holds when row `a` was created no earlier than row `b`:
the comparison behind `ORDER BY created_at DESC`. -/
def supaLaterEq (a b : SupaTx) : Prop := b.created_at ≤ a.created_at

instance : DecidableRel supaLaterEq := fun a b => Nat.decLe b.created_at a.created_at

instance : IsTotal SupaTx supaLaterEq := ⟨fun a b => Nat.le_total b.created_at a.created_at⟩

instance : IsTrans SupaTx supaLaterEq := ⟨fun _ _ _ h h' => le_trans h' h⟩

/-- `get_current_balance(user_id)` (`src/unnamed/part_000` lines 74-96):
the `balance_after` of the user's row that sorts first under
`ORDER BY created_at DESC`, or 0 if the user has no rows (`COALESCE`). -/
def get_current_balance (s : SupaState) (userId : Nat) : ℤ :=
  match (List.insertionSort supaLaterEq
      (s.txs.filter fun t => t.user_id == userId)).head? with
  | some t => t.balance_after
  | none => 0

/-- The Supabase client's `getTransactions` (`src/unnamed/part_007` lines
89-97): `from('transactions').select('*').order('created_at', { ascending:
false })` — row-level security (`src/unnamed/part_000` lines 58-62) restricts
the select to the authenticated user's own rows (`auth.uid() = user_id`); the
query has no limit/offset and hardcodes descending order, exposing no order
choice to the caller. -/
def supaGetTransactions (s : SupaState) (userId : Nat) : List SupaTx :=
  List.insertionSort supaLaterEq (s.txs.filter fun t => t.user_id == userId)

/-- `createTransaction` (`src/unnamed/part_007` lines 99-138).

The client reads `currentBalance` via the `get_current_balance` RPC, computes
`newBalance = type === 'deposit' ? currentBalance + amount
: currentBalance - amount`, rejects a withdrawal with
`amount > currentBalance`, and inserts one row with
`balance_after: newBalance`.  The insert succeeds only if the storage layer
does (`insertOk`) and the row passes the table's CHECK constraints
(`type IN ('deposit','withdrawal')`, `amount > 0`); a failed insert raises the
error to the caller and stores nothing. -/
def createTransaction (s : SupaState) (userId : Nat) (kind : String)
    (amount : ℤ) (description : Option String) (insertOk : Bool) :
    Except LedgerError (SupaTx × ℤ) × SupaState :=
  let currentBalance := get_current_balance s userId
  let newBalance :=
    if kind = "deposit" then currentBalance + amount
    else currentBalance - amount
  if kind = "withdrawal" ∧ currentBalance < amount then
    (.error .insufficientFunds, s)
  else if insertOk ∧ (kind = "deposit" ∨ kind = "withdrawal") ∧ 0 < amount then
    let t : SupaTx :=
      ⟨s.nextId, userId, kind, amount, description, newBalance, s.clock⟩
    (.ok (t, newBalance),
      { txs := s.txs ++ [t], nextId := s.nextId + 1, clock := s.clock + 1 })
  else (.error .storageFailure, s)

/-! ## In-memory mock implementation

`src/src/services/bankerService.ts` owns the module-level `customers` array;
`src/unnamed/part_006` implements `getAccountBalance`, `getTransactions` and
`makeTransaction` against it. -/

/-- A transaction record of the mock (`bankerService.ts` lines 3-9); `date` is
an ISO string in the source, modelled as a `Nat` day offset. -/
structure MockTx where
  id : Nat
  kind : TxKind
  amount : ℤ
  date : Nat
  description : Option String
deriving DecidableEq

/-- A customer record of the mock (`bankerService.ts` lines 11-18). -/
structure Customer where
  id : Nat
  username : String
  email : String
  balance : ℤ
  createdAt : Nat
  transactions : List MockTx
deriving DecidableEq

/-- The first seeded customer of the mock (`bankerService.ts` lines 22-44):
balance 5000, with a seeded deposit of 2000 and a withdrawal of 500. -/
def johndoeSeed : Customer :=
  ⟨0, "johndoe", "john.doe@example.com", 5000, 0,
    [ ⟨0, .deposit, 2000, 23, some "Initial deposit"⟩
    , ⟨1, .withdrawal, 500, 25, some "ATM withdrawal"⟩ ]⟩

/-- The second seeded customer of the mock (`bankerService.ts` lines 45-52):
balance 7500 with no transactions. -/
def janedoeSeed : Customer :=
  ⟨1, "janedoe", "jane.doe@example.com", 7500, 0, []⟩

/-- The module-level `customers` array as seeded (`bankerService.ts`
lines 21-53): the initial state of the mock ledger. -/
def mockCustomers : List Customer := [johndoeSeed, janedoeSeed]

/-- Sum of the amounts of a mock customer's deposit transactions. -/
def mockDepositSum (l : List MockTx) : ℤ :=
  ((l.filter fun t => t.kind == TxKind.deposit).map (·.amount)).sum

/-- Sum of the amounts of a mock customer's withdrawal transactions. -/
def mockWithdrawalSum (l : List MockTx) : ℤ :=
  ((l.filter fun t => t.kind == TxKind.withdrawal).map (·.amount)).sum

/-- `getAccountBalance` of the mock (`src/unnamed/part_006` lines 7-13):
`customers.find(c => c.id === id)` then `{ balance: customer?.balance || 0 }`.
A missed lookup yields the default balance 0 rather than an error (and
`balance || 0` equals `balance` for every numeric balance, 0 included). -/
def getAccountBalance (cs : List Customer) (customerId : Nat) : ℤ :=
  match cs.find? fun c => c.id == customerId with
  | some c => c.balance
  | none => 0

/-- The mock's `getTransactions` (`src/unnamed/part_006` lines 15-21):
`customer?.transactions || []` — the stored array exactly as it is (seeded
oldest-first; `updateCustomerBalance` later prepends), with no sorting, no
pagination and no order parameter. -/
def mockGetTransactions (cs : List Customer) (customerId : Nat) :
    List MockTx :=
  match cs.find? fun c => c.id == customerId with
  | some c => c.transactions
  | none => []

/-- `updateCustomerBalance` (`bankerService.ts` lines 104-114): find the index
of the customer; if absent do nothing, else overwrite `balance` and `unshift`
the new transaction (prepend, newest first). -/
def updateCustomerBalance : List Customer → Nat → ℤ → MockTx → List Customer
  | [], _, _, _ => []
  | c :: cs, customerId, newBalance, t =>
    if c.id == customerId then
      { c with balance := newBalance, transactions := t :: c.transactions } :: cs
    else c :: updateCustomerBalance cs customerId newBalance t

/-- `makeTransaction` of the mock (`src/unnamed/part_006` lines 39-77).
`throw new Error('Customer not found')` when the lookup misses;
`throw new Error('Insufficient funds')` when `type === 'withdrawal' &&
amount > customer.balance`; no other validation (the TypeScript signature
restricts `type`, but nothing checks the amount).  Otherwise compute
`newBalance`, build the record (with `uuidv4()` and `new Date()` modelled as
the `freshId` and `now` arguments) and mutate the store. -/
def makeTransaction (cs : List Customer) (customerId : Nat) (kind : TxKind)
    (amount : ℤ) (description : Option String) (freshId now : Nat) :
    Except LedgerError (Nat × ℤ) × List Customer :=
  match cs.find? fun c => c.id == customerId with
  | none => (.error .notFound, cs)
  | some customer =>
    if kind = .withdrawal ∧ customer.balance < amount then
      (.error .insufficientFunds, cs)
    else
      let newBalance :=
        if kind = .deposit then customer.balance + amount
        else customer.balance - amount
      let t : MockTx := ⟨freshId, kind, amount, now, description⟩
      (.ok (freshId, newBalance),
        updateCustomerBalance cs customerId newBalance t)

/-! ## JavaScript value semantics of the server route

`POST /api/account/transaction` validates its JSON body with
`if (!type || !amount || amount <= 0)` and later computes
`account.balance + amount`.  These are JavaScript truthiness, loose
comparison and `+`/`-`, whose behaviour on non-numeric payloads (for example
`amount: "abc"`) differs from the numeric restriction above, so the route is
also embedded over a model of JavaScript runtime values. -/

/-- JavaScript runtime values that can reach the handler from a JSON body:
finite numbers, `NaN`, strings and `undefined` (a missing field). -/
inductive JsVal
  | num (q : ℤ)
  | nan
  | str (s : String)
  | undef
deriving DecidableEq

/-- ECMAScript ToBoolean: `0`, `NaN`, `""` and `undefined` are falsy. -/
def jsTruthy : JsVal → Bool
  | .num q => decide (q ≠ 0)
  | .nan => false
  | .str s => decide (s ≠ "")
  | .undef => false

/-- Whitespace stripped by ToNumber on strings. -/
def isJsWhitespace (c : Char) : Bool :=
  c = ' ' ∨ c = '\t' ∨ c = '\n' ∨ c = '\r'

/-- ECMAScript ToNumber on a string: trim whitespace, the empty string is 0,
an optionally signed decimal integer numeral is its value, anything else is
`NaN` (`none`).  Fractional and exponent forms, which never occur in this
development's evaluations, are conservatively mapped to `NaN`. -/
def jsStrToNum (s : String) : Option ℤ :=
  let cs := ((s.toList.dropWhile isJsWhitespace).reverse.dropWhile
    isJsWhitespace).reverse
  match cs with
  | [] => some 0
  | _ =>
    let signDigits : ℤ × List Char :=
      match cs with
      | '-' :: rest => (-1, rest)
      | '+' :: rest => (1, rest)
      | _ => (1, cs)
    if signDigits.2 ≠ [] ∧ signDigits.2.all (·.isDigit) then
      some (signDigits.1 *
        ((signDigits.2.foldl (fun n c => n * 10 + (c.toNat - 48)) 0 : Nat) : ℤ))
    else none

/-- ECMAScript ToNumber; `none` stands for `NaN`. -/
def jsToNumber : JsVal → Option ℤ
  | .num q => some q
  | .nan => none
  | .str s => jsStrToNum s
  | .undef => none

/-- ECMAScript ToString: integers print as decimal numerals. -/
def jsToString : JsVal → String
  | .num q =>
      if q < 0 then "-" ++ toString q.natAbs
      else toString q.natAbs
  | .nan => "NaN"
  | .str s => s
  | .undef => "undefined"

/-- JavaScript `a <= b`: string-to-string comparisons are lexicographic;
otherwise both sides go through ToNumber and any `NaN` makes the comparison
false. -/
def jsLe (a b : JsVal) : Bool :=
  match a, b with
  | .str x, .str y => decide (x ≤ y)
  | _, _ =>
    match jsToNumber a, jsToNumber b with
    | some x, some y => decide (x ≤ y)
    | _, _ => false

/-- JavaScript `a > b` (the comparison `IsLessThan(b, a)`). -/
def jsGt (a b : JsVal) : Bool :=
  match a, b with
  | .str x, .str y => decide (y < x)
  | _, _ =>
    match jsToNumber a, jsToNumber b with
    | some x, some y => decide (y < x)
    | _, _ => false

/-- JavaScript `a + b`: if either operand is a string the result is the
concatenation of the ToString images, otherwise numeric addition with `NaN`
propagation. -/
def jsAdd (a b : JsVal) : JsVal :=
  match a, b with
  | .str _, _ => .str (jsToString a ++ jsToString b)
  | _, .str _ => .str (jsToString a ++ jsToString b)
  | _, _ =>
    match jsToNumber a, jsToNumber b with
    | some x, some y => .num (x + y)
    | _, _ => .nan

/-- JavaScript `a - b`: numeric subtraction with `NaN` propagation. -/
def jsSub (a b : JsVal) : JsVal :=
  match jsToNumber a, jsToNumber b with
  | some x, some y => .num (x - y)
  | _, _ => .nan

/-- An `accounts` row whose `balance` holds whatever JavaScript value the
handler last wrote (SQLite's dynamic typing stores non-numeric text despite
the column's REAL affinity). -/
structure JsAccount where
  id : Nat
  userId : Nat
  balance : JsVal
deriving DecidableEq

/-- A `transactions` row with the raw `amount` value the handler inserted. -/
structure JsTx where
  id : Nat
  accountId : Nat
  kind : String
  amount : JsVal
  description : Option String
  created_at : Nat
deriving DecidableEq

/-- Server state over JavaScript values. -/
structure JsServerState where
  accounts : List JsAccount
  txs : List JsTx
  nextTxId : Nat
  clock : Nat
deriving DecidableEq

/-- Successful response body, carrying the computed `newBalance` value. -/
structure JsTxResponse where
  transactionId : Nat
  newBalance : JsVal
deriving DecidableEq

/-- The handler of `POST /api/account/transaction` (`src/server/index.js`
lines 251-318) over JavaScript values, mirroring the source line by line:
`!type || !amount || amount <= 0`, then `type !== 'deposit' && type !==
'withdrawal'`, the account lookup, `type === 'withdrawal' && amount >
account.balance`, and `newBalance = type === 'deposit' ? account.balance +
amount : account.balance - amount` followed by the journalled write (taken
here as succeeding). -/
def postTransactionJS (s : JsServerState) (userId : Nat)
    (kind amount : JsVal) (description : Option String) :
    Except LedgerError JsTxResponse × JsServerState :=
  if ¬ jsTruthy kind ∨ ¬ jsTruthy amount ∨ jsLe amount (.num 0) then
    (.error .invalidAmount, s)
  else if kind ≠ .str "deposit" ∧ kind ≠ .str "withdrawal" then
    (.error .invalidKind, s)
  else
    match s.accounts.find? fun a => a.userId == userId with
    | none => (.error .notFound, s)
    | some account =>
      if kind = .str "withdrawal" ∧ jsGt amount account.balance then
        (.error .insufficientFunds, s)
      else
        let newBalance :=
          if kind = .str "deposit" then jsAdd account.balance amount
          else jsSub account.balance amount
        (.ok ⟨s.nextTxId, newBalance⟩,
          { accounts := s.accounts.map fun a =>
              if a.id = account.id then { a with balance := newBalance }
              else a
          , txs := s.txs ++
              [⟨s.nextTxId, account.id, jsToString kind, amount, description,
                s.clock⟩]
          , nextTxId := s.nextTxId + 1
          , clock := s.clock + 1 })

/-- A one-customer instance of the seeded database (balance 5000 from one
seeded 5000 deposit), over JavaScript values. -/
def jsSeedState : JsServerState :=
  { accounts := [⟨0, 0, .num 5000⟩]
  , txs := [⟨0, 0, "deposit", .num 5000, some "Initial deposit", 0⟩]
  , nextTxId := 1
  , clock := 1 }

/-! ## Interleaving model of concurrent transaction requests

In the server handler the balance read (`await db.get`) and the journalled
write (`await db.run` × 4) are separate awaited statements: the Node.js event
loop may run steps of another request between them, and the funds check and
`newBalance` use the previously read balance.  Each request is modelled as two
atomic micro-steps — read the shared balance, then validate against the read
value and (on success) apply the whole journalled write.  Collapsing
UPDATE/INSERT/COMMIT into a single atomic step is generous to the code: the
read/write race below exists regardless. -/

/-- Shared state of one account: its balance and committed transaction log. -/
structure CState where
  balance : ℤ
  txLog : List (TxKind × ℤ)
deriving DecidableEq

/-- One in-flight `postTransaction` request (already validated inputs). -/
structure Call where
  kind : TxKind
  amount : ℤ
deriving DecidableEq

/-- Progress of one request: not yet read, read a balance snapshot, or done
with a result (`none` = rejected with InsufficientFunds, `some nb` =
committed with new balance `nb`). -/
inductive Phase
  | ready
  | readDone (localBalance : ℤ)
  | finished (result : Option ℤ)
deriving DecidableEq

/-- One micro-step of one request against the shared state. -/
def microStep (g : CState) (c : Call) : Phase → CState × Phase
  | .ready => (g, .readDone g.balance)
  | .readDone localBalance =>
      if c.kind = .withdrawal ∧ localBalance < c.amount then
        (g, .finished none)
      else
        let newBalance :=
          if c.kind = .deposit then localBalance + c.amount
          else localBalance - c.amount
        (⟨newBalance, g.txLog ++ [(c.kind, c.amount)]⟩,
          .finished (some newBalance))
  | .finished r => (g, .finished r)

/-- The whole system: the shared account state and both requests' progress. -/
structure Sys where
  g : CState
  pa : Phase
  pb : Phase
deriving DecidableEq

/-- Run one scheduler pick: `false` steps request A, `true` steps request B. -/
def schedStep (ca cb : Call) (s : Sys) (pickB : Bool) : Sys :=
  if pickB then
    let gp := microStep s.g cb s.pb
    { s with g := gp.1, pb := gp.2 }
  else
    let gp := microStep s.g ca s.pa
    { s with g := gp.1, pa := gp.2 }

/-- Run a schedule (a list of scheduler picks) from an initial shared state. -/
def runSched (ca cb : Call) (sched : List Bool) (g0 : CState) : Sys :=
  sched.foldl (schedStep ca cb) ⟨g0, .ready, .ready⟩

/-- The spec's concurrency scenario: a withdrawal of 4000. -/
def wd4000 : Call := ⟨.withdrawal, 4000⟩

/-- The spec's concurrency scenario: an account with balance 6500. -/
def conc6500 : CState := ⟨6500, []⟩

/-! ## Theorems -/

/-- `find?` over a list mapped by a userId-preserving function. -/
lemma find?_map_preserving (l : List Account) (userId : Nat)
    (f : Account → Account) (hf : ∀ a, (f a).userId = a.userId) :
    (l.map f).find? (fun a => a.userId == userId) =
      (l.find? (fun a => a.userId == userId)).map f := by
  rw [List.find?_map]
  have hcomp : ((fun a => a.userId == userId) ∘ f) =
      (fun a => a.userId == userId) := by
    funext a
    simp [hf]
  rw [hcomp]

/-- After the balance update of a successful write, the account lookup returns
the same row with the new balance. -/
lemma findAccount_after_update (s : ServerState) (userId : Nat)
    (account : Account) (nb : ℤ)
    (hfind : findAccount s userId = some account) :
    (s.accounts.map fun a =>
        if a.id = account.id then { a with balance := nb } else a).find?
      (fun a => a.userId == userId) = some { account with balance := nb } := by
  rw [find?_map_preserving]
  · rw [show s.accounts.find? (fun a => a.userId == userId) = some account
      from hfind]
    simp
  · intro a
    by_cases h : a.id = account.id <;> simp [h]

/-- C4: every `postTransaction` call either succeeds, or returns an error to
the caller with the state (accounts, balances, transaction rows) exactly as it
was before the call — for the SQLite server handler (any combination of
storage-step failures), the Supabase `createTransaction`, and the in-memory
mock's `makeTransaction`. -/
theorem c4_failed_call_leaves_state_unchanged :
    (∀ (s : ServerState) (userId : Nat) (kind? : Option String) (amount : ℤ)
        (d : Option String) (oracle : WriteStep → Bool),
        (∃ r, (postTransaction s userId kind? amount d oracle).1 = .ok r) ∨
        (∃ e, postTransaction s userId kind? amount d oracle =
          (.error e, s))) ∧
    (∀ (s : SupaState) (userId : Nat) (kind : String) (amount : ℤ)
        (d : Option String) (insertOk : Bool),
        (∃ r, (createTransaction s userId kind amount d insertOk).1 = .ok r) ∨
        (∃ e, createTransaction s userId kind amount d insertOk =
          (.error e, s))) ∧
    (∀ (cs : List Customer) (customerId : Nat) (kind : TxKind) (amount : ℤ)
        (d : Option String) (freshId now : Nat),
        (∃ r, (makeTransaction cs customerId kind amount d freshId now).1 =
          .ok r) ∨
        (∃ e, makeTransaction cs customerId kind amount d freshId now =
          (.error e, cs))) := by
  refine ⟨?_, ?_, ?_⟩
  · intro s userId kind? amount d oracle
    simp only [postTransaction]
    repeat' split
    all_goals first
      | exact .inl ⟨_, rfl⟩
      | exact .inr ⟨_, rfl⟩
  · intro s userId kind amount d insertOk
    simp only [createTransaction]
    repeat' split
    all_goals first
      | exact .inl ⟨_, rfl⟩
      | exact .inr ⟨_, rfl⟩
  · intro cs customerId kind amount d freshId now
    simp only [makeTransaction]
    repeat' split
    all_goals first
      | exact .inl ⟨_, rfl⟩
      | exact .inr ⟨_, rfl⟩

/-- C2: a withdrawal request whose amount strictly exceeds the current
balance fails with InsufficientFunds and leaves the whole state (balance and
transaction history) unchanged — for the server handler and for the mock's
`makeTransaction`.  (`0 ≤ account.balance` makes the positive amount pass the
server's preceding `amount <= 0` validation.) -/
theorem c2_insufficient_funds_rejected :
    (∀ (s : ServerState) (userId : Nat) (amount : ℤ) (d : Option String)
        (oracle : WriteStep → Bool) (account : Account),
        findAccount s userId = some account →
        0 ≤ account.balance → account.balance < amount →
        postTransaction s userId (some "withdrawal") amount d oracle =
          (.error .insufficientFunds, s)) ∧
    (∀ (cs : List Customer) (customerId : Nat) (amount : ℤ)
        (d : Option String) (freshId now : Nat) (customer : Customer),
        cs.find? (fun c => c.id == customerId) = some customer →
        customer.balance < amount →
        makeTransaction cs customerId .withdrawal amount d freshId now =
          (.error .insufficientFunds, cs)) := by
  constructor
  · intro s userId amount d oracle account hfind h0 hlt
    have h1 : ¬ amount ≤ 0 := not_le.mpr (lt_of_le_of_lt h0 hlt)
    unfold postTransaction
    rw [hfind]
    simp [h1, hlt]
  · intro cs customerId amount d freshId now customer hfind hlt
    unfold makeTransaction
    rw [hfind]
    simp [hlt]

/-- C2 witness: withdrawing 10000 against the seeded balance 5000 fails with
InsufficientFunds and changes nothing, in the server and in the mock. -/
theorem c2_witness :
    postTransaction seedState 0 (some "withdrawal") 10000 none noFail =
      (.error .insufficientFunds, seedState) ∧
    makeTransaction mockCustomers 0 .withdrawal 10000 none 7 30 =
      (.error .insufficientFunds, mockCustomers) :=
  ⟨c2_insufficient_funds_rejected.1 seedState 0 10000 none noFail ⟨0, 0, 5000⟩
      (by decide) (by decide) (by decide),
   c2_insufficient_funds_rejected.2 mockCustomers 0 10000 none 7 30 johndoeSeed
      (by decide) (by decide)⟩

/-- C10: a withdrawal of exactly the current balance passes the strict
`amount > balance` funds check and leaves the balance at exactly 0 — in the
server handler, the mock's `makeTransaction`, and the Supabase
`createTransaction`. -/
theorem c10_exact_balance_withdrawal :
    (∀ (s : ServerState) (userId : Nat) (d : Option String) (account : Account),
        findAccount s userId = some account →
        0 < account.balance →
        (postTransaction s userId (some "withdrawal") account.balance d
          noFail).1 = .ok ⟨s.nextTxId, 0⟩ ∧
        findAccount (postTransaction s userId (some "withdrawal")
            account.balance d noFail).2 userId =
          some { account with balance := 0 }) ∧
    (∀ (cs : List Customer) (customerId : Nat) (d : Option String)
        (freshId now : Nat) (customer : Customer),
        cs.find? (fun c => c.id == customerId) = some customer →
        (makeTransaction cs customerId .withdrawal customer.balance d freshId
          now).1 = .ok (freshId, 0)) ∧
    (∀ (s : SupaState) (userId : Nat) (d : Option String),
        0 < get_current_balance s userId →
        (createTransaction s userId "withdrawal"
            (get_current_balance s userId) d true).1 =
          .ok (⟨s.nextId, userId, "withdrawal", get_current_balance s userId,
            d, 0, s.clock⟩, 0)) := by
  refine ⟨?_, ?_, ?_⟩
  · intro s userId d account hfind hpos
    have h1 : ¬ account.balance ≤ 0 := not_le.mpr hpos
    have h2 : ¬ account.balance < account.balance := lt_irrefl _
    have hupd := findAccount_after_update s userId account
      (account.balance - account.balance) hfind
    rw [sub_self] at hupd
    constructor
    · simp [postTransaction, hfind, h1, h2, noFail]
    · simp only [postTransaction]
      rw [hfind]
      simp [h1, h2, noFail, findAccount, sub_self, hupd]
  · intro cs customerId d freshId now customer hfind
    have h2 : ¬ customer.balance < customer.balance := lt_irrefl _
    simp [makeTransaction, hfind, h2]
  · intro s userId d hpos
    have h2 : ¬ get_current_balance s userId < get_current_balance s userId :=
      lt_irrefl _
    simp [createTransaction, h2, hpos]

/-- C10 witness: withdrawing the full seeded balance of 5000 succeeds and
leaves balance 0, in all three implementations. -/
theorem c10_witness :
    ((postTransaction seedState 0 (some "withdrawal") 5000 none noFail).1 =
        .ok ⟨3, 0⟩ ∧
      findAccount (postTransaction seedState 0 (some "withdrawal") 5000 none
          noFail).2 0 = some ⟨0, 0, 0⟩) ∧
    (makeTransaction mockCustomers 0 .withdrawal 5000 none 7 30).1 =
      .ok (7, 0) ∧
    (createTransaction ⟨[⟨0, 0, "deposit", 5000, none, 5000, 0⟩], 1, 1⟩ 0
        "withdrawal" 5000 none true).1 =
      .ok (⟨1, 0, "withdrawal", 5000, none, 0, 1⟩, 0) :=
  ⟨c10_exact_balance_withdrawal.1 seedState 0 none ⟨0, 0, 5000⟩ (by decide)
      (by decide),
   c10_exact_balance_withdrawal.2.1 mockCustomers 0 none 7 30 johndoeSeed
      (by decide),
   c10_exact_balance_withdrawal.2.2 ⟨[⟨0, 0, "deposit", 5000, none, 5000, 0⟩],
      1, 1⟩ 0 none (by decide)⟩

/-- C1: for every accepted transaction, the new balance equals the prior
balance plus the amount for a deposit and minus the amount for a withdrawal;
the response carries this `newBalance`; the stored balance becomes exactly
this value (server), and the inserted row's `balance_after` records it where
that column exists (Supabase). -/
theorem c1_accepted_transaction_new_balance :
    (∀ (s : ServerState) (userId : Nat) (kind? : Option String) (amount : ℤ)
        (d : Option String) (oracle : WriteStep → Bool) (r : TxResponse)
        (account : Account),
        findAccount s userId = some account →
        (postTransaction s userId kind? amount d oracle).1 = .ok r →
        ((kind? = some "deposit" ∧ r.newBalance = account.balance + amount) ∨
         (kind? = some "withdrawal" ∧
           r.newBalance = account.balance - amount)) ∧
        findAccount (postTransaction s userId kind? amount d oracle).2
          userId = some { account with balance := r.newBalance }) ∧
    (∀ (s : SupaState) (userId : Nat) (kind : String) (amount : ℤ)
        (d : Option String) (insertOk : Bool) (t : SupaTx) (nb : ℤ),
        (createTransaction s userId kind amount d insertOk).1 = .ok (t, nb) →
        ((kind = "deposit" ∧ nb = get_current_balance s userId + amount) ∨
         (kind = "withdrawal" ∧
           nb = get_current_balance s userId - amount)) ∧
        t.balance_after = nb ∧
        (createTransaction s userId kind amount d insertOk).2.txs =
          s.txs ++ [t]) := by
  constructor
  · intro s userId kind? amount d oracle r account hfind hok
    by_cases hdep : kind? = some "deposit"
    · subst hdep
      by_cases h1 : (amount : ℤ) ≤ 0
      · exact absurd hok (by simp [postTransaction, h1])
      · revert hok
        simp only [postTransaction, hfind]
        simp [h1]
        split
        · intro hok
          have hr : r = ⟨s.nextTxId, account.balance + amount⟩ := by
            simpa using hok.symm
          subst hr
          refine ⟨rfl, ?_⟩
          simpa [findAccount] using findAccount_after_update s userId account
            (account.balance + amount) hfind
        · intro hok
          exact absurd hok (by simp)
    · by_cases hwit : kind? = some "withdrawal"
      · subst hwit
        by_cases h1 : (amount : ℤ) ≤ 0
        · exact absurd hok (by simp [postTransaction, h1])
        · revert hok
          simp only [postTransaction, hfind]
          simp [h1]
          split
          · intro hok
            exact absurd hok (by simp)
          · split
            · intro hok
              have hr : r = ⟨s.nextTxId, account.balance - amount⟩ := by
                simpa using hok.symm
              subst hr
              refine ⟨rfl, ?_⟩
              simpa [findAccount] using findAccount_after_update s userId
                account (account.balance - amount) hfind
            · intro hok
              exact absurd hok (by simp)
      · exfalso
        rcases hk : kind? with _ | k
        · subst hk
          simp [postTransaction] at hok
        · subst hk
          have hk1 : ¬ k = "deposit" := by simpa using hdep
          have hk2 : ¬ k = "withdrawal" := by simpa using hwit
          by_cases h1 : amount ≤ 0
          · simp [postTransaction, h1] at hok
          · simp [postTransaction, h1, hk1, hk2] at hok
  · intro s userId kind amount d insertOk t nb hok
    revert hok
    simp only [createTransaction]
    split
    · intro hok
      exact absurd hok (by simp)
    · split
      · rename_i hnofunds hcheck
        intro hok
        have hpair : (⟨s.nextId, userId, kind, amount, d,
            (if kind = "deposit" then get_current_balance s userId + amount
             else get_current_balance s userId - amount), s.clock⟩ : SupaTx)
              = t ∧
            (if kind = "deposit" then get_current_balance s userId + amount
             else get_current_balance s userId - amount) = nb := by
          simpa using hok
        rcases hpair with ⟨ht, hnb⟩
        rcases hcheck with ⟨-, hkind, -⟩
        refine ⟨?_, ?_, ?_⟩
        · rcases hkind with hk | hk
          · subst hk
            simp only [if_pos rfl] at hnb
            exact Or.inl ⟨rfl, hnb.symm⟩
          · by_cases hdep : kind = "deposit"
            · subst hdep
              simp only [if_pos rfl] at hnb
              exact Or.inl ⟨rfl, hnb.symm⟩
            · subst hk
              simp only [if_neg hdep] at hnb
              exact Or.inr ⟨rfl, hnb.symm⟩
        · rw [← ht, ← hnb]
        · rw [← ht]
      · intro hok
        exact absurd hok (by simp)

/-- A Supabase state holding one committed deposit of 5000 (the spec's
opening scenario). -/
def supaSeed : SupaState := ⟨[⟨0, 0, "deposit", 5000, none, 5000, 0⟩], 1, 1⟩

/-- C1 witness: on the seeded server state, a deposit of 100 is accepted with
`newBalance` 5100 = 5000 + 100 and the stored balance becomes 5100; on a
Supabase state with balance 5000, a deposit of 2000 yields 7000 and the
inserted row records `balance_after` 7000. -/
theorem c1_witness :
    ((((some "deposit" : Option String) = some "deposit" ∧
        (5100 : ℤ) = 5000 + 100) ∨
      ((some "deposit" : Option String) = some "withdrawal" ∧
        (5100 : ℤ) = 5000 - 100)) ∧
     findAccount (postTransaction seedState 0 (some "deposit") 100 none
        noFail).2 0 = some ⟨0, 0, 5100⟩) ∧
    ((("deposit" = "deposit" ∧
        (7000 : ℤ) = get_current_balance supaSeed 0 + 2000) ∨
      ("deposit" = "withdrawal" ∧
        (7000 : ℤ) = get_current_balance supaSeed 0 - 2000)) ∧
     (7000 : ℤ) = 7000 ∧
     (createTransaction supaSeed 0 "deposit" 2000 none true).2.txs =
       supaSeed.txs ++ [⟨1, 0, "deposit", 2000, none, 7000, 1⟩]) :=
  ⟨c1_accepted_transaction_new_balance.1 seedState 0 (some "deposit") 100 none
      noFail ⟨3, 5100⟩ ⟨0, 0, 5000⟩ (by decide) (by decide),
   c1_accepted_transaction_new_balance.2 supaSeed 0 "deposit" 2000 none true
      ⟨1, 0, "deposit", 2000, none, 7000, 1⟩ 7000 (by decide)⟩

/-- Appending one transaction row adds its amount to the deposit sum of its
account and leaves other sums unchanged. -/
lemma depositSum_append (l : List Tx) (t : Tx) (i : Nat) :
    depositSum (l ++ [t]) i =
      depositSum l i +
        (if t.accountId = i ∧ t.kind = TxKind.deposit then t.amount else 0) := by
  unfold depositSum
  rw [List.filter_append, List.map_append, List.sum_append]
  congr 1
  by_cases h : t.accountId = i ∧ t.kind = TxKind.deposit
  · simp [h.1, h.2, h]
  · rcases not_and_or.mp h with h' | h' <;> simp [h', h]

/-- Appending one transaction row adds its amount to the withdrawal sum of its
account and leaves other sums unchanged. -/
lemma withdrawalSum_append (l : List Tx) (t : Tx) (i : Nat) :
    withdrawalSum (l ++ [t]) i =
      withdrawalSum l i +
        (if t.accountId = i ∧ t.kind = TxKind.withdrawal then t.amount
         else 0) := by
  unfold withdrawalSum
  rw [List.filter_append, List.map_append, List.sum_append]
  congr 1
  by_cases h : t.accountId = i ∧ t.kind = TxKind.withdrawal
  · simp [h.1, h.2, h]
  · rcases not_and_or.mp h with h' | h' <;> simp [h', h]

/-- Shape of the state after a `postTransaction` call: either unchanged (any
failure), or the balance update plus the appended matching transaction row of
a successful deposit or withdrawal. -/
lemma postTransaction_snd_cases (s : ServerState) (userId : Nat)
    (kind? : Option String) (amount : ℤ) (d : Option String)
    (oracle : WriteStep → Bool) :
    (postTransaction s userId kind? amount d oracle).2 = s ∨
    ∃ account kind,
      findAccount s userId = some account ∧
      (postTransaction s userId kind? amount d oracle).2 =
        { accounts := s.accounts.map fun a =>
            if a.id = account.id then
              { a with balance :=
                  if kind = TxKind.deposit then account.balance + amount
                  else account.balance - amount }
            else a
        , txs := s.txs ++ [⟨s.nextTxId, account.id, kind, amount, d, s.clock⟩]
        , nextTxId := s.nextTxId + 1
        , clock := s.clock + 1 } := by
  rcases hfind : findAccount s userId with _ | account
  · simp only [postTransaction, hfind]
    repeat' split
    all_goals exact .inl rfl
  · simp only [postTransaction, hfind]
    repeat' split
    all_goals first
      | exact .inl rfl
      | exact .inr ⟨account, TxKind.deposit, rfl, rfl⟩
      | exact .inr ⟨account, TxKind.withdrawal, rfl, rfl⟩
      | simp_all

/-- The update of a successful write preserves the account id column. -/
lemma map_update_ids (l : List Account) (i : Nat) (nb : ℤ) :
    (l.map fun a => if a.id = i then { a with balance := nb } else a).map
      (·.id) = l.map (·.id) := by
  rw [List.map_map]
  apply List.map_congr_left
  intro a _
  by_cases hid : a.id = i <;> simp [hid]

/-- One `postTransaction` call preserves distinctness of account ids and the
balance identity. -/
lemma postTransaction_preserves_identity (s : ServerState) (userId : Nat)
    (kind? : Option String) (amount : ℤ) (d : Option String)
    (oracle : WriteStep → Bool)
    (hn : accountIdsNodup s) (hb : balanceIdentity s) :
    accountIdsNodup (postTransaction s userId kind? amount d oracle).2 ∧
      balanceIdentity (postTransaction s userId kind? amount d oracle).2 := by
  rcases postTransaction_snd_cases s userId kind? amount d oracle with
    h | ⟨account, kind, hfind, h⟩
  · rw [h]
    exact ⟨hn, hb⟩
  · rw [h]
    have haccmem : account ∈ s.accounts := List.mem_of_find?_eq_some hfind
    constructor
    · unfold accountIdsNodup at hn ⊢
      rw [map_update_ids]
      exact hn
    · intro a' ha'
      rcases List.mem_map.mp ha' with ⟨a, ha, rfl⟩
      by_cases hid : a.id = account.id
      · have haeq : a = account :=
          List.inj_on_of_nodup_map hn ha haccmem hid
        subst haeq
        simp only [if_pos hid, depositSum_append, withdrawalSum_append]
        have hbal := hb a ha
        cases kind
        · simp [hid]
          omega
        · simp [hid]
          omega
      · simp only [if_neg hid, depositSum_append, withdrawalSum_append]
        have h3 : ¬ account.id = a.id := fun hc => hid hc.symm
        simp [h3]
        exact hb a ha

/-- C3 counterexample: the mock's seeded `customers` array — the initial state
of the in-memory ledger — violates the balance identity: johndoe is seeded
with balance 5000 but with committed transactions summing to
2000 - 500 = 1500. -/
theorem c3_counterexample :
    johndoeSeed ∈ mockCustomers ∧
    johndoeSeed.balance = 5000 ∧
    mockDepositSum johndoeSeed.transactions -
      mockWithdrawalSum johndoeSeed.transactions = 1500 ∧
    johndoeSeed.balance ≠
      mockDepositSum johndoeSeed.transactions -
        mockWithdrawalSum johndoeSeed.transactions := by
  refine ⟨by decide, by decide, by decide, by decide⟩

/-- C3 (amended): in the SQLite server implementation, the balance identity —
every account's stored balance equals the sum of its committed deposit amounts
minus the sum of its committed withdrawal amounts — holds in every state
reachable from the seeded database. -/
theorem c3_server_balance_identity (s : ServerState)
    (h : ServerReachable s) : balanceIdentity s := by
  have hinv : accountIdsNodup s ∧ balanceIdentity s := by
    induction h with
    | seed =>
        exact ⟨by simp only [accountIdsNodup]; decide,
          by simp only [balanceIdentity]; decide⟩
    | step s' userId kind? amount d oracle _ ih =>
        exact postTransaction_preserves_identity s' userId kind? amount d
          oracle ih.1 ih.2
  exact hinv.2

/-- C3 witness: the seeded server state satisfies the balance identity. -/
theorem c3_witness : balanceIdentity seedState :=
  c3_server_balance_identity seedState ServerReachable.seed

/-- C6: in the Supabase implementation the current balance — what
`get_current_balance` computes via `ORDER BY created_at DESC LIMIT 1` — is
the `balance_after` of a most recent transaction of the user (one whose
`created_at` is maximal), or 0 when the user has no transactions.  This holds
for every state, in particular every reachable one. -/
theorem c6_balance_is_latest_balance_after (s : SupaState) (userId : Nat) :
    (s.txs.filter (fun t => t.user_id == userId) = [] ∧
      get_current_balance s userId = 0) ∨
    (∃ t, t ∈ s.txs.filter (fun t => t.user_id == userId) ∧
      (∀ t' ∈ s.txs.filter (fun t => t.user_id == userId),
        t'.created_at ≤ t.created_at) ∧
      get_current_balance s userId = t.balance_after) := by
  set l := s.txs.filter (fun t => t.user_id == userId) with hl
  rcases hsort : List.insertionSort supaLaterEq l with _ | ⟨t, rest⟩
  · left
    have hperm := List.perm_insertionSort supaLaterEq l
    rw [hsort] at hperm
    refine ⟨hperm.symm.eq_nil, ?_⟩
    simp only [get_current_balance, ← hl, hsort, List.head?_nil]
  · right
    have hperm := List.perm_insertionSort supaLaterEq l
    rw [hsort] at hperm
    have hsorted := List.sorted_insertionSort supaLaterEq l
    rw [hsort] at hsorted
    rcases List.sorted_cons.mp hsorted with ⟨hhead, -⟩
    refine ⟨t, hperm.mem_iff.mp (List.mem_cons_self t rest), ?_, ?_⟩
    · intro t' ht'
      rcases List.mem_cons.mp (hperm.symm.mem_iff.mp ht') with heq | hmem
      · rw [heq]
      · exact hhead t' hmem
    · simp only [get_current_balance, ← hl, hsort, List.head?_cons]

/-- C6 witness: instantiated at the one-transaction Supabase state. -/
theorem c6_witness :
    (supaSeed.txs.filter (fun t => t.user_id == 0) = [] ∧
      get_current_balance supaSeed 0 = 0) ∨
    (∃ t, t ∈ supaSeed.txs.filter (fun t => t.user_id == 0) ∧
      (∀ t' ∈ supaSeed.txs.filter (fun t => t.user_id == 0),
        t'.created_at ≤ t.created_at) ∧
      get_current_balance supaSeed 0 = t.balance_after) :=
  c6_balance_is_latest_balance_after supaSeed 0

/-- C9 (amended): every implementation's history read returns a finite,
fully-materialized sequence of all of the account's transactions, with no
pagination and no order parameter.  The server route and the Supabase query
return it sorted by `created_at` descending (a permutation of the account's
rows, nothing omitted); the mock returns the stored array exactly as it is
(all of the customer's records, in storage order, unsorted by any query). -/
theorem c9_list_all_descending :
    (∀ (s : ServerState) (userId : Nat) (account : Account),
        findAccount s userId = some account →
        ∃ l, listTransactions s userId = .ok l ∧
          l.Perm (s.txs.filter fun t => t.accountId == account.id) ∧
          List.Sorted txLaterEq l) ∧
    (∀ (s : SupaState) (userId : Nat),
        (supaGetTransactions s userId).Perm
          (s.txs.filter fun t => t.user_id == userId) ∧
        List.Sorted supaLaterEq (supaGetTransactions s userId)) ∧
    (∀ (cs : List Customer) (customerId : Nat),
        (∀ customer, cs.find? (fun c => c.id == customerId) = some customer →
          mockGetTransactions cs customerId = customer.transactions) ∧
        (cs.find? (fun c => c.id == customerId) = none →
          mockGetTransactions cs customerId = [])) := by
  refine ⟨?_, ?_, ?_⟩
  · intro s userId account hfind
    have h : listTransactions s userId = .ok (List.insertionSort txLaterEq
        (s.txs.filter fun t => t.accountId == account.id)) := by
      simp [listTransactions, hfind]
    exact ⟨_, h, List.perm_insertionSort _ _, List.sorted_insertionSort _ _⟩
  · intro s userId
    exact ⟨List.perm_insertionSort _ _, List.sorted_insertionSort _ _⟩
  · intro cs customerId
    constructor
    · intro customer hfind
      simp [mockGetTransactions, hfind]
    · intro hfind
      simp [mockGetTransactions, hfind]

/-- C9 witness: instantiated on the seeded server state, the one-row Supabase
state, and the seeded mock store. -/
theorem c9_witness :
    (∃ l, listTransactions seedState 0 = .ok l ∧
      l.Perm (seedState.txs.filter fun t => t.accountId ==
        (⟨0, 0, 5000⟩ : Account).id) ∧
      List.Sorted txLaterEq l) ∧
    ((supaGetTransactions supaSeed 0).Perm
        (supaSeed.txs.filter fun t => t.user_id == 0) ∧
      List.Sorted supaLaterEq (supaGetTransactions supaSeed 0)) ∧
    mockGetTransactions mockCustomers 0 = johndoeSeed.transactions :=
  ⟨c9_list_all_descending.1 seedState 0 ⟨0, 0, 5000⟩ (by decide),
   c9_list_all_descending.2.1 supaSeed 0,
   (c9_list_all_descending.2.2 mockCustomers 0).1 johndoeSeed (by decide)⟩

/-- A server state whose single account has two committed transactions with
distinct timestamps. -/
def c9State : ServerState :=
  { accounts := [⟨0, 0, 7000⟩]
  , txs := [⟨0, 0, .deposit, 5000, none, 0⟩, ⟨1, 0, .deposit, 2000, none, 1⟩]
  , nextTxId := 2
  , clock := 2 }

/-- C9 counterexample.  First, the history read admits no order choice — the
server query hardcodes `ORDER BY created_at DESC` — so on a two-transaction
account the only obtainable result is the newest-first list, which differs
from the ascending (oldest-first) order the claim says a caller may request.
Second, the mock's `getTransactions` is not ordered by `created_at` at all:
after one `makeTransaction` on the seeded store (which prepends a record
dated 30 onto the seeded oldest-first records dated 23 and 25), the returned
dates are [30, 23, 25] — sorted neither descending nor ascending. -/
theorem c9_counterexample :
    listTransactions c9State 0 =
      .ok [⟨1, 0, .deposit, 2000, none, 1⟩,
        ⟨0, 0, .deposit, 5000, none, 0⟩] ∧
    ([⟨1, 0, .deposit, 2000, none, 1⟩, ⟨0, 0, .deposit, 5000, none, 0⟩] :
        List Tx) ≠
      [⟨0, 0, .deposit, 5000, none, 0⟩, ⟨1, 0, .deposit, 2000, none, 1⟩] ∧
    (mockGetTransactions
        (makeTransaction mockCustomers 0 .deposit 100 none 7 30).2 0).map
      (·.date) = [30, 23, 25] ∧
    ¬ List.Sorted (fun a b : Nat => b ≤ a) [30, 23, 25] ∧
    ¬ List.Sorted (fun a b : Nat => a ≤ b) [30, 23, 25] :=
  ⟨by decide, by decide, by decide, by decide, by decide⟩

/-- C8 counterexample: the mock's `getAccountBalance` does not fail for a
missing account — on the seeded store, looking up the nonexistent customer
id 999 misses and the call returns the default balance 0 instead of a
NotFound failure (the function has no failure outcome at all). -/
theorem c8_counterexample :
    (mockCustomers.find? fun c => c.id == 999) = none ∧
    getAccountBalance mockCustomers 999 = 0 :=
  ⟨by decide, by decide⟩

/-- C8 (amended): the server's `getBalance` returns the stored balance when
the account exists and fails with NotFound when it does not; the in-memory
mock's `getAccountBalance` never fails — when its customer lookup misses it
returns the default balance 0. -/
theorem c8_get_balance (s : ServerState) (userId : Nat) :
    (∀ account, findAccount s userId = some account →
      getBalance s userId = .ok account.balance) ∧
    (findAccount s userId = none →
      getBalance s userId = .error .notFound) ∧
    (∀ (cs : List Customer) (customerId : Nat),
      (cs.find? fun c => c.id == customerId) = none →
      getAccountBalance cs customerId = 0) := by
  refine ⟨?_, ?_, ?_⟩
  · intro account hfind
    simp [getBalance, hfind]
  · intro hfind
    simp [getBalance, hfind]
  · intro cs customerId hfind
    simp [getAccountBalance, hfind]

/-- C8 witness: balance of the seeded account, NotFound on an empty database,
and the mock's default 0 on an empty store. -/
theorem c8_witness :
    getBalance seedState 0 = .ok (5000 : ℤ) ∧
    getBalance ⟨[], [], 0, 0⟩ 0 = .error .notFound ∧
    getAccountBalance [] 0 = 0 :=
  ⟨(c8_get_balance seedState 0).1 ⟨0, 0, 5000⟩ (by decide),
   (c8_get_balance ⟨[], [], 0, 0⟩ 0).2.1 (by decide),
   (c8_get_balance seedState 0).2.2 [] 0 (by decide)⟩

/-- C7 (code bug): the server's validation accepts the non-numeric amount
"abc": `!amount` is false ("abc" is truthy) and `"abc" <= 0` is false (a NaN
comparison), so a deposit of the string "abc" is not rejected with
InvalidAmount; the handler commits it, answers success, and sets the account
balance to the concatenated string "5000abc".  (A deposit of -5, by contrast,
is rejected as the claim states.) -/
theorem c7_string_amount_accepted :
    (postTransactionJS jsSeedState 0 (.str "deposit") (.str "abc") none).1 =
      .ok ⟨1, .str "5000abc"⟩ ∧
    (postTransactionJS jsSeedState 0 (.str "deposit") (.str "abc")
        none).2.accounts = [⟨0, 0, .str "5000abc"⟩] ∧
    (postTransactionJS jsSeedState 0 (.str "deposit") (.num (-5)) none).1 =
      .error .invalidAmount :=
  ⟨by decide, by decide, by decide⟩

/-- C5 counterexample (the spec's own scenario): scheduling the micro-steps
as read-A, read-B, write-A, write-B — which the awaited statements of the
handler permit — makes BOTH 4000-withdrawals against balance 6500 succeed:
final balance 2500 with two committed withdrawals, an outcome different from
each of the two serial orders, hence consistent with no total order of the
calls. -/
theorem c5_counterexample :
    runSched wd4000 wd4000 [false, true, false, true] conc6500 =
      ⟨⟨2500, [(.withdrawal, 4000), (.withdrawal, 4000)]⟩,
        .finished (some 2500), .finished (some 2500)⟩ ∧
    runSched wd4000 wd4000 [false, true, false, true] conc6500 ≠
      runSched wd4000 wd4000 [false, false, true, true] conc6500 ∧
    runSched wd4000 wd4000 [false, true, false, true] conc6500 ≠
      runSched wd4000 wd4000 [true, true, false, false] conc6500 :=
  ⟨by decide, by decide, by decide⟩

/-- C5 (amended): non-overlapping executions of the two 4000-withdrawals
against balance 6500 serialize as the claim describes — in either order
exactly one call succeeds with new balance 2500, the other fails
InsufficientFunds, and exactly one transaction is committed.  But the code
does not force this: the overlapping schedule (both reads before either
write) commits both withdrawals. -/
theorem c5_serial_vs_interleaved :
    runSched wd4000 wd4000 [false, false, true, true] conc6500 =
      ⟨⟨2500, [(.withdrawal, 4000)]⟩, .finished (some 2500),
        .finished none⟩ ∧
    runSched wd4000 wd4000 [true, true, false, false] conc6500 =
      ⟨⟨2500, [(.withdrawal, 4000)]⟩, .finished none,
        .finished (some 2500)⟩ ∧
    runSched wd4000 wd4000 [false, true, false, true] conc6500 =
      ⟨⟨2500, [(.withdrawal, 4000), (.withdrawal, 4000)]⟩,
        .finished (some 2500), .finished (some 2500)⟩ :=
  ⟨by decide, by decide, by decide⟩

end Bank
